import Mathlib

/-!
Verification of the AI generation orchestration subsystem of an
education-platform backend (`app/ai_services`).  The Python sources are
shallowly embedded: pure string/arithmetic code is translated directly,
stateful code (the shared counter cache, the process-wide breaker
registry, usage-log writes) is threaded as explicit state, and calls into
external libraries (`bleach.clean`, the profanity classifier,
`json.loads`, the provider SDKs) are abstracted as function parameters of
the embedding.  All definitions are executable.
-/

namespace AiLms

/-! ## `utils/security.py` — `ContentValidator.sanitize_user_input`

The sanitizer runs `bleach.clean(user_input, tags=[], strip=True)`
(external library, modelled by the parameter `clean`), collapses
whitespace with `re.sub(r'\s+', ' ', ...).strip()`, and truncates to
`AI_MAX_INPUT_LENGTH` (default 5000) appending `"..."`.
-/

/-- The characters matched by the regex class `\s` (the ASCII part; the
unicode whitespace code points additionally matched by the `re` module of
Python play no role in any proof below). -/
def pyIsSpace (c : Char) : Bool :=
  c == ' ' || c == '\t' || c == '\n' || c == '\r' || c == '\x0b' || c == '\x0c'

/-- `re.sub(r'\s+', ' ', s)`, written as a fold with an `inRun` flag so
that the recursion is structural: the first character of each maximal
whitespace run becomes `' '`, the remaining characters of the run are
dropped. -/
def collapseWsAux : Bool → List Char → List Char
  | _, [] => []
  | inRun, c :: rest =>
    if pyIsSpace c then
      if inRun then collapseWsAux true rest
      else ' ' :: collapseWsAux true rest
    else c :: collapseWsAux false rest

/-- `re.sub(r'\s+', ' ', s)`: every maximal nonempty run of whitespace is
replaced by a single `' '`. -/
def collapseWs (l : List Char) : List Char := collapseWsAux false l

/-- Python `str.strip()`: remove whitespace from both ends. -/
def pyStrip (l : List Char) : List Char :=
  List.rdropWhile pyIsSpace (List.dropWhile pyIsSpace l)

/-- The cleaned, whitespace-collapsed and stripped text, before the
length cap (`utils/security.py` lines 82–85). -/
def collapsedClean (clean : String → String) (user_input : String) : List Char :=
  pyStrip (collapseWs (clean user_input).data)

/-- The truncation marker `"..."` appended at line 90. -/
def ellipsis : List Char := ['.', '.', '.']

/-- `ContentValidator.sanitize_user_input` (`utils/security.py` 78–92),
parameterised by `clean` (the external `bleach.clean(·, tags=[],
strip=True)`) and by `max_length` (`settings.AI_MAX_INPUT_LENGTH`,
default 5000).  A pure function of its inputs. -/
def sanitize_user_input (clean : String → String) (max_length : Nat)
    (user_input : String) : String :=
  let sanitized := collapsedClean clean user_input
  if max_length < sanitized.length then ⟨sanitized.take max_length ++ ellipsis⟩
  else ⟨sanitized⟩

/-- Normal form of the collapse pass: every whitespace character is a
single `' '` and no two whitespace characters are adjacent. -/
def WsNorm (l : List Char) : Prop :=
  (∀ c ∈ l, pyIsSpace c = true → c = ' ') ∧
  l.Chain' (fun a b => ¬(pyIsSpace a = true ∧ pyIsSpace b = true))

/-! ## `utils/security.py` — `ContentValidator.validate_educational_content` -/

/-- Substring test on character lists (the Python `in` operator on
strings). -/
def hasSubstrAux (pat : List Char) : List Char → Bool
  | [] => pat.isEmpty
  | c :: rest => pat.isPrefixOf (c :: rest) || hasSubstrAux pat rest

/-- `pat in s` for Python strings. -/
def strContains (s pat : String) : Bool := hasSubstrAux pat.data s.data

/-- Python `str.lower()`, character by character (the strings lowered by
the source are ASCII). -/
def pyToLower (s : String) : String := ⟨s.data.map Char.toLower⟩

/-- The result dictionary of `validate_educational_content`. -/
structure ValidationResult where
  is_valid : Bool
  score : Int
  issues : List String
  educational_keywords_found : Nat
deriving DecidableEq

/-- The fixed keyword list of `utils/security.py` lines 54–57. -/
def educational_keywords : List String :=
  ["learn", "understand", "concept", "example", "definition",
   "explain", "demonstrate", "analyze", "compare", "evaluate"]

/-- `ContentValidator.validate_educational_content` (`utils/security.py`
37–76).  The profanity classifier (external `profanity_check.predict`) is
the parameter `is_profane`.  The score deductions are applied in source
order; the returned score is floored at 0 and `is_valid` compares the
raw running score with 70. -/
def validate_educational_content (is_profane : String → Bool)
    (content : String) : ValidationResult :=
  let issues0 : List String := []
  let score0 : Int := 100
  let issues1 := if is_profane content then
      issues0 ++ ["Content contains inappropriate language"] else issues0
  let score1 := if is_profane content then score0 - 50 else score0
  let issues2 := if (pyStrip content.data).length < 10 then
      issues1 ++ ["Content too short"] else issues1
  let score2 := if (pyStrip content.data).length < 10 then score1 - 30 else score1
  let content_lower := pyToLower content
  let educational_score :=
    educational_keywords.countP (fun k => strContains content_lower k)
  let issues3 := if educational_score = 0 then
      issues2 ++ ["Content lacks educational indicators"] else issues2
  let score3 := if educational_score = 0 then score2 - 20 else score2
  let issues4 := if strContains content_lower "question" && !strContains content "?" then
      issues3 ++ ["Questions should end with question marks"] else issues3
  let score4 := if strContains content_lower "question" && !strContains content "?" then
      score3 - 10 else score3
  { is_valid := score4 ≥ 70, score := max 0 score4, issues := issues4,
    educational_keywords_found := educational_score }

/-! ## `utils/security.py` — `RateLimiter`

The Django cache (external shared key-value store with expiry) is
modelled as a function from keys to optional (value, ttl) pairs.
-/

/-- The shared expiring key-value store behind `django.core.cache`. -/
def Cache : Type := String → Option (Nat × Nat)

/-- `cache.get(key, default)` (the ttl is bookkeeping only). -/
def cacheGet (c : Cache) (key : String) (default : Nat) : Nat :=
  match c key with
  | some (v, _) => v
  | none => default

/-- `cache.set(key, value, timeout)`. -/
def cacheSet (c : Cache) (key : String) (value ttl : Nat) : Cache :=
  fun k => if k = key then some (value, ttl) else c k

/-- The cache with no keys set. -/
def emptyCache : Cache := fun _ => none

/-- `RateLimiter.get_rate_limit_key` (`utils/security.py` 132–135). -/
def get_rate_limit_key (userId : Nat) (service_type : String) : String :=
  "ai_rate_limit:" ++ toString userId ++ ":" ++ service_type

/-- `RateLimiter.check_rate_limit` (`utils/security.py` 137–150):
returns `false` once the windowed counter reaches `limit`, otherwise
increments it (resetting its expiry to `window`) and returns `true`. -/
def check_rate_limit (c : Cache) (userId : Nat) (service_type : String)
    (limit window : Nat) : Bool × Cache :=
  let key := get_rate_limit_key userId service_type
  let current_count := cacheGet c key 0
  if limit ≤ current_count then (false, c)
  else (true, cacheSet c key (current_count + 1) window)

/-! ## `services.py` — `AIUsageTracker` -/

/-- The dictionary returned by `check_usage_limit`: either the
rate-limit rejection (lines 35–39) or the monthly-quota decision
(lines 51–57). -/
inductive UsageDecision where
  | rateLimited (reason : String) (retry_after : Nat)
  | monthly (allowed : Bool) (current_usage monthly_limit : Nat)
      (remaining : Int) (reason : Option String)
deriving DecidableEq

/-- The `allowed` entry of the decision dictionary. -/
def UsageDecision.allowed : UsageDecision → Bool
  | .rateLimited _ _ => false
  | .monthly a _ _ _ _ => a

/-- The `reason` entry of the decision dictionary. -/
def UsageDecision.reason : UsageDecision → Option String
  | .rateLimited r _ => some r
  | .monthly _ _ _ _ r => r

/-- Lines 25–31: the monthly limit from the `AIUsageLimit` row for the
role, falling back to `settings.AI_USAGE_LIMITS.get(role, 50)`. -/
def resolve_monthly_limit (limit_table settings_limits : String → Option Nat)
    (role : String) : Nat :=
  match limit_table role with
  | some l => l
  | none => (settings_limits role).getD 50

/-- The external collaborators and per-request data that
`generate_content` reads: the requesting user, the quota tables, the
count of successful usage rows in the current month, and the external
text functions. -/
structure GenEnv where
  userId : Nat
  role : String
  /-- `AIUsageLimit` rows: role ↦ monthly_limit. -/
  limit_table : String → Option Nat
  /-- `settings.AI_USAGE_LIMITS`. -/
  settings_limits : String → Option Nat
  /-- Successful `AIUsageLog` rows of this user since the first instant
  of the current month. -/
  current_usage : Nat
  /-- The external `bleach.clean(·, tags=[], strip=True)`. -/
  clean : String → String
  /-- `settings.AI_MAX_INPUT_LENGTH` (default 5000). -/
  max_input_length : Nat
  /-- The external `profanity_check.predict`. -/
  is_profane : String → Bool

/-- `AIUsageTracker.check_usage_limit` (`services.py` 22–57): the hourly
rate-limit check runs first and is reported distinctly; otherwise the
monthly count is compared with the resolved limit. -/
def check_usage_limit (env : GenEnv) (c : Cache) (service_type : String) :
    UsageDecision × Cache :=
  let monthly_limit := resolve_monthly_limit env.limit_table env.settings_limits env.role
  let rate := check_rate_limit c env.userId service_type 10 3600
  if rate.1 = false then
    (.rateLimited "Rate limit exceeded (10 requests per hour)" 3600, rate.2)
  else
    (.monthly (env.current_usage < monthly_limit) env.current_usage monthly_limit
      (max 0 ((monthly_limit : Int) - (env.current_usage : Int)))
      (if monthly_limit ≤ env.current_usage then some "Monthly limit exceeded" else none),
     rate.2)

/-- One `AIUsageLog` row as written by `AIUsageTracker.log_usage`
(`services.py` 59–92).  Encryption failures inside `log_usage` are caught
(lines 72–79) and never prevent the row, so the write is total. -/
structure UsageLogRecord where
  service_type : String
  tokens_used : Nat
  cost_estimate : Rat
  success : Bool
  error_message : Option String
  provider : Option String
  model_used : Option String
deriving DecidableEq

/-- `AIUsageTracker.log_usage`, reduced to the row it creates. -/
def log_usage (service_type : String) (tokens_used : Nat) (cost_estimate : Rat)
    (success : Bool) (error_message : Option String) (provider : Option String)
    (model_used : Option String) : UsageLogRecord :=
  { service_type := service_type, tokens_used := tokens_used,
    cost_estimate := cost_estimate, success := success,
    error_message := error_message, provider := provider,
    model_used := model_used }

/-! ## `utils/circuit_breaker.py` — retry policy -/

/-- `RetryManager.exponential_backoff` (lines 87–91). -/
def exponential_backoff (attempt : Nat) (base_delay max_delay : Rat) : Rat :=
  min (base_delay * 2 ^ attempt) max_delay

/-- `RetryManager.should_retry` (lines 93–107).  The exception is
represented by its message (`str(exception)`). -/
def should_retry (exception : String) (attempt max_attempts : Nat) : Bool :=
  if max_attempts ≤ attempt then false
  else if strContains (pyToLower exception) "authentication"
      || strContains (pyToLower exception) "unauthorized" then false
  else if strContains (pyToLower exception) "quota"
      || strContains (pyToLower exception) "rate limit" then false
  else true

/-- Observable trace of one `retry_with_backoff`-wrapped call: the final
result, how often the wrapped operation ran, and the sleeps performed
between attempts. -/
structure RetryOutcome (α : Type) where
  result : Except String α
  invocations : Nat
  sleeps : List Rat

/-- The `for attempt in range(max_attempts)` loop of `retry_with_backoff`
(lines 110–136), with the remaining iterations as structural fuel.  The
operation is indexed by the attempt number; an exception is its message.
`should_retry` failing breaks the loop and the last exception is
re-raised; a sleep of `exponential_backoff(attempt, base_delay)` happens
only when another attempt follows. -/
def retryAux {α : Type} (op : Nat → Except String α) (max_attempts : Nat)
    (base_delay : Rat) : Nat → Nat → RetryOutcome α
  | 0, _ => { result := .error "None", invocations := 0, sleeps := [] }
  | fuel + 1, attempt =>
    match op attempt with
    | .ok a => { result := .ok a, invocations := 1, sleeps := [] }
    | .error e =>
      if should_retry e attempt max_attempts = true then
        if attempt < max_attempts - 1 then
          let rest := retryAux op max_attempts base_delay fuel (attempt + 1)
          { result := rest.result, invocations := 1 + rest.invocations,
            sleeps := exponential_backoff attempt base_delay 60 :: rest.sleeps }
        else { result := .error e, invocations := 1, sleeps := [] }
      else { result := .error e, invocations := 1, sleeps := [] }

/-- `retry_with_backoff(max_attempts, base_delay)` applied to an
operation. -/
def retry_with_backoff {α : Type} (max_attempts : Nat) (base_delay : Rat)
    (op : Nat → Except String α) : RetryOutcome α :=
  retryAux op max_attempts base_delay max_attempts 0

/-! ## `utils/circuit_breaker.py` — breaker registry -/

/-- The process-wide `_circuit_breakers` dictionary (line 63) together
with an allocator for breaker identities: distinct identities stand for
distinct `AIServiceCircuitBreaker` instances. -/
structure BreakerRegistry where
  table : String → Option Nat
  nextId : Nat

/-- The registry at process start: no breakers created yet. -/
def emptyBreakerRegistry : BreakerRegistry :=
  { table := fun _ => none, nextId := 0 }

/-- `get_circuit_breaker` (lines 66–70): return the cached breaker for
the name, creating and caching a fresh one on first use. -/
def get_circuit_breaker (r : BreakerRegistry) (service_name : String) :
    Nat × BreakerRegistry :=
  match r.table service_name with
  | some b => (b, r)
  | none =>
    (r.nextId,
     { table := fun n => if n = service_name then some r.nextId else r.table n,
       nextId := r.nextId + 1 })

/-- Well-formedness of the registry: cached identities are fresh-bounded
and distinct names hold distinct identities. -/
def RegistryWF (r : BreakerRegistry) : Prop :=
  (∀ n b, r.table n = some b → b < r.nextId) ∧
  (∀ n₁ n₂ b₁ b₂, r.table n₁ = some b₁ → r.table n₂ = some b₂ → n₁ ≠ n₂ → b₁ ≠ b₂)

/-- `services.py` line 203: the decorator on `generate_content` is
`@circuit_breaker('ai_service')`, so the breaker name the generate
pipeline passes to `get_circuit_breaker` is the constant
`"ai_service"`, whatever the service kind. -/
def pipeline_breaker_name (_service_name : String) : String := "ai_service"

/-! ## `providers` and `services.py` — provider resolution -/

/-- A constructed provider instance (`providers/base.py`): its backend
identifier and model. -/
structure ProviderInst where
  name : String
  model : String
deriving DecidableEq

/-- The service configuration dictionary (`config_data` of
`AIServiceConfig`, or `_get_default_config`).  The temperature and
max-token entries are passed through to the provider constructor and do
not affect any claim, so they are not modelled. -/
structure ServiceConfig where
  provider : String
  model : String
  fallback_provider : Option String
  fallback_model : String
deriving DecidableEq

/-- `_get_default_config` (`services.py` 114–142): all three service
kinds configure primary `openai`/`gpt-3.5-turbo` with fallback
`anthropic`/`claude-3-haiku-20240307` (they differ only in temperature
and max_tokens, which are not modelled). -/
def default_config (_service_name : String) : ServiceConfig :=
  { provider := "openai", model := "gpt-3.5-turbo",
    fallback_provider := some "anthropic",
    fallback_model := "claude-3-haiku-20240307" }

/-- `_get_fallback_provider` (`services.py` 176–201).  The parameter
`build` abstracts the api-key lookup, `AIProviderFactory.create_provider`
and `validate_config` for a (provider, model) pair: `.error` when any of
them raises or validation fails. -/
def get_fallback_provider (build : String → String → Except String ProviderInst)
    (config : ServiceConfig) : Except String ProviderInst :=
  match config.fallback_provider with
  | none => .error "No fallback provider configured"
  | some fp =>
    match build fp config.fallback_model with
    | .ok p => .ok p
    | .error _ => .error "No working AI provider available"

/-- `_get_provider` (`services.py` 144–174): any failure while
constructing or validating the primary provider falls back to
`_get_fallback_provider`. -/
def get_provider (build : String → String → Except String ProviderInst)
    (config : ServiceConfig) : Except String ProviderInst :=
  match build config.provider config.model with
  | .ok p => .ok p
  | .error _ => get_fallback_provider build config

/-! ## `services.py` — `EnhancedAIService.generate_content` -/

/-- The value a provider call returns (`providers/base.py`
`AIResponse`). -/
structure ProviderResponse where
  success : Bool
  content : String
  tokens_used : Nat
  cost_estimate : Rat
  model_used : String
  error_message : String
deriving DecidableEq

/-- The dictionary `generate_content` returns on success
(`services.py` 253–262). -/
structure GenResult where
  content : String
  tokens_used : Nat
  cost_estimate : Rat
  model_used : String
  /-- `self.config.get('provider')` — the configured primary name. -/
  provider : Option String
  validation : ValidationResult
deriving DecidableEq

/-- Observable trace of one `generate_content` body execution: the
returned dictionary or the raised exception message, the number of
`provider.generate_text` invocations, the usage-log rows written, and the
cache state afterwards. -/
structure GenOutcome where
  result : Except String GenResult
  providerCalls : Nat
  logs : List UsageLogRecord
  cache : Cache

/-- The undecorated body of `EnhancedAIService.generate_content`
(`services.py` 205–262).  `gen_text` is `self.provider.generate_text`
(the provider network call).  The usage-limit check runs first and raises
with the reason of the decision; then the prompt and system prompt are
sanitized, the provider is invoked, a failed response raises, and a
successful response is validated and logged as one `success=True` usage
row before the result dictionary is returned. -/
def generate_content (env : GenEnv) (config : ServiceConfig)
    (service_name : String) (c : Cache) (prompt : String)
    (system_prompt : Option String)
    (gen_text : String → Option String → ProviderResponse) : GenOutcome :=
  let checked := check_usage_limit env c service_name
  if checked.1.allowed = false then
    { result := .error (checked.1.reason.getD "None"),
      providerCalls := 0, logs := [], cache := checked.2 }
  else
    let sanitized_prompt := sanitize_user_input env.clean env.max_input_length prompt
    let sanitized_system :=
      system_prompt.map (sanitize_user_input env.clean env.max_input_length)
    let response := gen_text sanitized_prompt sanitized_system
    if response.success = false then
      { result := .error ("AI generation failed: " ++ response.error_message),
        providerCalls := 1, logs := [], cache := checked.2 }
    else
      let validation_result := validate_educational_content env.is_profane response.content
      let usage_log := log_usage service_name response.tokens_used
        response.cost_estimate true none (some config.provider) (some response.model_used)
      { result := .ok {
          content := response.content,
          tokens_used := response.tokens_used,
          cost_estimate := response.cost_estimate,
          model_used := response.model_used,
          provider := some config.provider,
          validation := validation_result },
        providerCalls := 1, logs := [usage_log], cache := checked.2 }

/-- The retry loop of `retry_with_backoff` applied to the
`generate_content` body, threading the cache across attempts and
accumulating provider calls and usage-log rows.  The sleeps are elided
here (they are the subject of `retryAux`). -/
def retryGenAux (op : Nat → Cache → GenOutcome) (max_attempts : Nat) :
    Nat → Nat → Cache → GenOutcome
  | 0, _, c => { result := .error "None", providerCalls := 0, logs := [], cache := c }
  | fuel + 1, attempt, c =>
    let o := op attempt c
    match o.result with
    | .ok _ => o
    | .error e =>
      if should_retry e attempt max_attempts = true then
        if attempt < max_attempts - 1 then
          let rest := retryGenAux op max_attempts fuel (attempt + 1) o.cache
          { result := rest.result,
            providerCalls := o.providerCalls + rest.providerCalls,
            logs := o.logs ++ rest.logs, cache := rest.cache }
        else o
      else o

/-- `@retry_with_backoff(max_attempts=3, base_delay=1.0)` around the
`generate_content` body (`services.py` line 204). -/
def retry_generate_content (op : Nat → Cache → GenOutcome) (c : Cache) : GenOutcome :=
  retryGenAux op 3 3 0 c

/-! ## `services.py` — `QuizGenerationService.generate_quiz` -/

/-- The dictionary `generate_quiz` returns (`services.py` 315–324),
restricted to the fields the claims mention. -/
structure QuizFinal where
  status : String
  validation : ValidationResult
  provider : Option String
  model_used : String
  tokens_used : Nat
  cost_estimate : Rat
deriving DecidableEq

/-- Observable trace of one `generate_quiz` call. -/
structure QuizOutcome where
  result : Except String QuizFinal
  providerCalls : Nat
  logs : List UsageLogRecord
  cache : Cache
  /-- Whether the final result was written to the result cache
  (`cache.set(cache_key, final_result, 7200)`, score ≥ 80 only). -/
  result_cached : Bool

/-- The collaborators of one `generate_quiz` call (`services.py`
265–346).  `gen_text` gives the provider response of each retry attempt;
`parse_quiz` abstracts `_parse_quiz_response` (whose JSON decoding is the
external `json.loads`); the prompt builders abstract the two
`_build_quiz_*` methods, whose output text affects no claim.  The result
cache (keys `quiz_gen_...`, disjoint from the rate-limit keys) is
summarised by `cached_quiz`; `circuit_open` is the state of the pybreaker
gate around the whole decorated call. -/
structure QuizEnv where
  gen : GenEnv
  config : ServiceConfig
  cache0 : Cache
  /-- `Lesson.objects.get(id=lesson_id).content`, or `none` when the
  lookup raises `DoesNotExist`. -/
  lesson : Option String
  /-- `cache.get(cache_key)` for the quiz result cache. -/
  cached_quiz : Option QuizFinal
  /-- Whether the `ai_service` circuit breaker rejects the call
  outright. -/
  circuit_open : Bool
  gen_text : Nat → String → Option String → ProviderResponse
  parse_quiz : String → Except String Unit
  build_system_prompt : String
  build_human_prompt : String → String
  is_instructor : Bool

/-- `QuizGenerationService.generate_quiz` (`services.py` 271–346): cache
check, generation through breaker and retry, parse, persist a
`GeneratedContent` row, cache the result when the validation score
reaches 80; the enclosing `except` block writes exactly one
`success=False` usage row with the caught message and re-raises. -/
def generate_quiz (env : QuizEnv) : QuizOutcome :=
  match env.lesson with
  | none =>
    let msg := "Lesson matching query does not exist."
    { result := .error msg, providerCalls := 0,
      logs := [log_usage "quiz_generation" 0 0 false (some msg) none none],
      cache := env.cache0, result_cached := false }
  | some lesson_content =>
    match env.cached_quiz with
    | some cached =>
      { result := .ok cached, providerCalls := 0, logs := [],
        cache := env.cache0, result_cached := false }
    | none =>
      let system_prompt := env.build_system_prompt
      let human_prompt := env.build_human_prompt lesson_content
      let g :=
        if env.circuit_open then
          { result := .error "Failures threshold reached, circuit breaker opened",
            providerCalls := 0, logs := [], cache := env.cache0 }
        else
          retry_generate_content
            (fun attempt c =>
              generate_content env.gen env.config "quiz_generation" c
                human_prompt (some system_prompt) (env.gen_text attempt))
            env.cache0
      match g.result with
      | .error e =>
        { result := .error e, providerCalls := g.providerCalls,
          logs := g.logs ++ [log_usage "quiz_generation" 0 0 false (some e) none none],
          cache := g.cache, result_cached := false }
      | .ok res =>
        match env.parse_quiz res.content with
        | .error pe =>
          { result := .error pe, providerCalls := g.providerCalls,
            logs := g.logs ++ [log_usage "quiz_generation" 0 0 false (some pe) none none],
            cache := g.cache, result_cached := false }
        | .ok _ =>
          { result := .ok {
              status := if env.is_instructor then "auto_approved" else "pending",
              validation := res.validation, provider := res.provider,
              model_used := res.model_used, tokens_used := res.tokens_used,
              cost_estimate := res.cost_estimate },
            providerCalls := g.providerCalls, logs := g.logs, cache := g.cache,
            result_cached := decide (80 ≤ res.validation.score) }

/-! ## Concrete instances used by witnesses and counterexamples -/

/-- An operation failing twice with a quota message, then succeeding. -/
def quotaFailingOp : Nat → Except String Nat := fun n =>
  if n < 2 then .error "quota exceeded" else .ok 7

/-- An operation failing twice with a transient message, then
succeeding. -/
def transientFailingOp : Nat → Except String Nat := fun n =>
  if n < 2 then .error "connection timeout" else .ok 7

/-- An operation that always fails with the monthly-quota rejection
message raised by `generate_content`. -/
def monthlyLimitOp : Nat → Except String Nat := fun _ =>
  .error "Monthly limit exceeded"

/-- A provider constructor for which the primary `openai` raises and the
fallback `anthropic` constructs fine. -/
def primaryDownBuild : String → String → Except String ProviderInst := fun name model =>
  if name = "anthropic" then .ok { name := "anthropic", model := model }
  else .error "Invalid API key"

/-- A user environment with no special rows anywhere. -/
def baseGenEnv : GenEnv :=
  { userId := 1, role := "student",
    limit_table := fun _ => none, settings_limits := fun _ => none,
    current_usage := 0, clean := id, max_input_length := 5000,
    is_profane := fun _ => false }

/-- The same user after 50 successful calls this month (the default
monthly limit). -/
def quotaExhaustedEnv : GenEnv := { baseGenEnv with current_usage := 50 }

/-- A successful provider response with educational content. -/
def goodResponse : ProviderResponse :=
  { success := true, content := "Learn this concept with an example.",
    tokens_used := 100, cost_estimate := (1 : Rat) / 1000,
    model_used := "gpt-3.5-turbo", error_message := "" }

/-- A quiz call where generation succeeds but the structural parse of the
generated text fails. -/
def parseFailQuizEnv : QuizEnv :=
  { gen := baseGenEnv, config := default_config "quiz_generation",
    cache0 := emptyCache, lesson := some "Bits and bytes.",
    cached_quiz := none, circuit_open := false,
    gen_text := fun _ _ _ => goodResponse,
    parse_quiz := fun _ => .error "Invalid quiz format: missing questions key",
    build_system_prompt := "sys", build_human_prompt := fun c => c,
    is_instructor := false }

/-- The same quiz call with a parse that accepts. -/
def parseOkQuizEnv : QuizEnv :=
  { parseFailQuizEnv with parse_quiz := fun _ => .ok () }

/-- Project the provider identifier out of a generation outcome. -/
def result_provider (o : GenOutcome) : Option String :=
  match o.result with
  | .ok r => r.provider
  | .error _ => none

/-- The usage-log discipline of one (possibly retried) `generate_content`
execution: a success returns exactly one `success=True` row, a raised
exception returns none (the failed row is written by the caller). -/
def CleanGenLogs (o : GenOutcome) : Prop :=
  (∀ r, o.result = Except.ok r →
    ∃ rec, o.logs = [rec] ∧ rec.success = true ∧ rec.error_message = none)
  ∧ (∀ e, o.result = Except.error e → o.logs = [])

theorem string_length_mk (l : List Char) : (String.mk l).length = l.length := rfl

/-- C10: the returned string has length at most `max_length + 3`; an
over-long collapsed text is truncated to exactly `max_length` characters
plus the 3-character marker, otherwise the collapsed text is returned
with its length unchanged. -/
theorem C10_sanitize_length_bound (clean : String → String) (max_length : Nat)
    (x : String) :
    (sanitize_user_input clean max_length x).length ≤ max_length + 3
    ∧ (max_length < (collapsedClean clean x).length →
        sanitize_user_input clean max_length x
          = ⟨(collapsedClean clean x).take max_length ++ ellipsis⟩
        ∧ (sanitize_user_input clean max_length x).length = max_length + 3)
    ∧ ((collapsedClean clean x).length ≤ max_length →
        sanitize_user_input clean max_length x = ⟨collapsedClean clean x⟩
        ∧ (sanitize_user_input clean max_length x).length
            = (collapsedClean clean x).length) := by
  unfold sanitize_user_input
  by_cases h : max_length < (collapsedClean clean x).length
  · rw [if_pos h]
    have hlen : (String.mk ((collapsedClean clean x).take max_length ++ ellipsis)).length
        = max_length + 3 := by
      rw [string_length_mk, List.length_append, List.length_take]
      simp only [ellipsis, List.length_cons, List.length_nil]
      omega
    exact ⟨by omega, fun _ => ⟨rfl, hlen⟩, fun h' => absurd h (by omega)⟩
  · rw [if_neg h]
    rw [Nat.not_lt] at h
    exact ⟨by rw [string_length_mk]; omega, fun h' => absurd h' (by omega),
      fun _ => ⟨rfl, string_length_mk _⟩⟩

/-- Witness for C10 at a concrete input: `"ab   cd"` collapses to
`"ab cd"` (5 characters); with a cap of 4 it becomes `"ab c..."`, with
the default cap it is returned whole. -/
theorem C10_sanitize_length_bound_witness :
    sanitize_user_input id 4 "ab   cd" = "ab c..."
    ∧ (sanitize_user_input id 4 "ab   cd").length = 4 + 3
    ∧ sanitize_user_input id 5000 "ab   cd" = "ab cd" := by
  have h4 := C10_sanitize_length_bound id 4 "ab   cd"
  have h5000 := C10_sanitize_length_bound id 5000 "ab   cd"
  have hlen : (collapsedClean id "ab   cd").length = 5 := by decide
  have hcap : 4 < (collapsedClean id "ab   cd").length := by omega
  refine ⟨?_, (h4.2.1 hcap).2, ?_⟩
  · rw [(h4.2.1 hcap).1]; decide
  · rw [(h5000.2.2 (by omega)).1]; decide

/-- C7: the validation score is 100 minus 50 for profanity, 30 for a
trimmed length under 10, 20 for no pedagogy keyword, 10 for `question`
without a `?`, floored at 0, and the pass flag holds exactly when the
reported score is at least 70; a text with none of the four issues
scores 100. -/
theorem C7_validation_score_formula (is_profane : String → Bool) (content : String) :
    (validate_educational_content is_profane content).score
      = max 0 (100 - (if is_profane content then (50 : Int) else 0)
          - (if (pyStrip content.data).length < 10 then 30 else 0)
          - (if educational_keywords.countP
                (fun k => strContains (pyToLower content) k) = 0 then 20 else 0)
          - (if strContains (pyToLower content) "question" && !strContains content "?"
              then 10 else 0))
    ∧ ((validate_educational_content is_profane content).is_valid = true ↔
        70 ≤ (validate_educational_content is_profane content).score)
    ∧ (is_profane content = false →
       10 ≤ (pyStrip content.data).length →
       educational_keywords.countP (fun k => strContains (pyToLower content) k) ≠ 0 →
       (strContains (pyToLower content) "question" && !strContains content "?") = false →
       (validate_educational_content is_profane content).score = 100) := by
  refine ⟨?_, ?_, ?_⟩
  · unfold validate_educational_content
    dsimp only
    split_ifs <;> rfl
  · unfold validate_educational_content
    dsimp only
    split_ifs <;> decide
  · intro h1 h2 h3 h4
    unfold validate_educational_content
    dsimp only
    rw [h1, h4]
    rw [if_neg (by omega : ¬(pyStrip content.data).length < 10), if_neg h3]
    rfl

/-- Witness for C7: a clean keyword-bearing text with no structural
issue scores 100 and passes. -/
theorem C7_validation_score_formula_witness :
    (validate_educational_content (fun _ => false)
        "Learn this concept with an example.").score = 100
    ∧ (validate_educational_content (fun _ => false)
        "Learn this concept with an example.").is_valid = true := by
  have h := C7_validation_score_formula (fun _ => false)
    "Learn this concept with an example."
  have h100 := h.2.2 rfl (by decide) (by decide) (by decide)
  exact ⟨h100, h.2.1.mpr (by omega)⟩

/-- C9: `check_rate_limit` returns `false` exactly when the stored
counter has reached the limit, and then leaves the store untouched; when
it returns `true` it writes the counter incremented by one with the
window expiry under its own key and modifies no other key. -/
theorem C9_rate_limit_frame (c : Cache) (userId : Nat) (service_type : String)
    (limit window : Nat) :
    ((check_rate_limit c userId service_type limit window).1 = false ↔
      limit ≤ cacheGet c (get_rate_limit_key userId service_type) 0)
    ∧ ((check_rate_limit c userId service_type limit window).1 = false →
        (check_rate_limit c userId service_type limit window).2 = c)
    ∧ ((check_rate_limit c userId service_type limit window).1 = true →
        (check_rate_limit c userId service_type limit window).2
            (get_rate_limit_key userId service_type)
          = some (cacheGet c (get_rate_limit_key userId service_type) 0 + 1, window))
    ∧ (∀ k, k ≠ get_rate_limit_key userId service_type →
        (check_rate_limit c userId service_type limit window).2 k = c k) := by
  unfold check_rate_limit
  dsimp only
  by_cases h : limit ≤ cacheGet c (get_rate_limit_key userId service_type) 0
  · rw [if_pos h]
    exact ⟨by simp [h], fun _ => rfl, fun hf => by simp at hf, fun k _ => rfl⟩
  · rw [if_neg h]
    refine ⟨by simp [h], fun hf => by simp at hf, fun _ => by simp [cacheSet],
      fun k hk => by simp [cacheSet, hk]⟩

/-- Witness for C9: on the empty store the check passes and writes
exactly the counter 1 with the hour expiry under the rate key, leaving
other keys unset. -/
theorem C9_rate_limit_frame_witness :
    (check_rate_limit emptyCache 1 "quiz_generation" 10 3600).1 = true
    ∧ (check_rate_limit emptyCache 1 "quiz_generation" 10 3600).2
        (get_rate_limit_key 1 "quiz_generation") = some (1, 3600)
    ∧ (check_rate_limit emptyCache 1 "quiz_generation" 10 3600).2 "other" = none := by
  have h := C9_rate_limit_frame emptyCache 1 "quiz_generation" 10 3600
  have ht : (check_rate_limit emptyCache 1 "quiz_generation" 10 3600).1 = true := by decide
  refine ⟨ht, h.2.2.1 ht, ?_⟩
  rw [h.2.2.2 "other" (by decide)]
  rfl

/-- C3 (divergence): the monthly-quota rejection raised by
`generate_content` carries the message `"Monthly limit exceeded"`, which
`should_retry` classifies as retryable (it contains neither `"quota"`
nor `"rate limit"`), so the retry wrapper runs three attempts instead of
one for a monthly-limited call. -/
theorem C3_monthly_limit_is_retried :
    (check_usage_limit quotaExhaustedEnv emptyCache "quiz_generation").1.allowed = false
    ∧ (check_usage_limit quotaExhaustedEnv emptyCache "quiz_generation").1.reason
        = some "Monthly limit exceeded"
    ∧ should_retry "Monthly limit exceeded" 0 3 = true
    ∧ should_retry "Rate limit exceeded (10 requests per hour)" 0 3 = false
    ∧ (retry_with_backoff 3 1 monthlyLimitOp).invocations = 3
    ∧ (retry_with_backoff 3 1 monthlyLimitOp).result = .error "Monthly limit exceeded" := by
  exact ⟨by decide, by decide, by decide, by decide, by decide, rfl⟩

/-- C6 (counterexample): an operation failing its first two invocations
with a quota-classified message and succeeding on the third is NOT
invoked 3 times — `should_retry` breaks the loop after the first
attempt, no sleeps happen and the error is re-raised. -/
theorem C6_counterexample :
    quotaFailingOp 0 = .error "quota exceeded"
    ∧ quotaFailingOp 1 = .error "quota exceeded"
    ∧ quotaFailingOp 2 = .ok 7
    ∧ (retry_with_backoff 3 1 quotaFailingOp).invocations = 1
    ∧ (retry_with_backoff 3 1 quotaFailingOp).result = .error "quota exceeded"
    ∧ (retry_with_backoff 3 1 quotaFailingOp).sleeps = [] :=
  ⟨rfl, rfl, rfl, by decide, rfl, rfl⟩

/-- C6 (amended): with `max_attempts=3, base_delay=1.0`, an operation
whose first two failures are retryable (not classified as
authentication or quota/rate-limit by `should_retry`) and which
succeeds on the third invocation makes exactly 3 invocations, returns
the third result, and sleeps `min(1*2^0,60) = 1` then `min(1*2^1,60) =
2` seconds between attempts, with no sleep after the final attempt. -/
theorem C6_retry_three_attempts {α : Type} (op : Nat → Except String α)
    (e₀ e₁ : String) (a : α)
    (h0 : op 0 = .error e₀) (h1 : op 1 = .error e₁) (h2 : op 2 = .ok a)
    (hr0 : should_retry e₀ 0 3 = true) (hr1 : should_retry e₁ 1 3 = true) :
    (retry_with_backoff 3 1 op).result = .ok a
    ∧ (retry_with_backoff 3 1 op).invocations = 3
    ∧ (retry_with_backoff 3 1 op).sleeps
        = [exponential_backoff 0 1 60, exponential_backoff 1 1 60]
    ∧ exponential_backoff 0 1 60 = min (1 * 2 ^ 0) 60
    ∧ exponential_backoff 1 1 60 = min (1 * 2 ^ 1) 60
    ∧ exponential_backoff 0 1 60 + exponential_backoff 1 1 60 = 1 + 2 := by
  have hrun : retry_with_backoff 3 1 op
      = { result := .ok a, invocations := 3,
          sleeps := [exponential_backoff 0 1 60, exponential_backoff 1 1 60] } := by
    unfold retry_with_backoff
    unfold retryAux
    rw [h0]
    dsimp only
    rw [hr0, if_pos rfl, if_pos (by norm_num : (0 : Nat) < 3 - 1)]
    unfold retryAux
    rw [h1]
    dsimp only
    rw [hr1, if_pos rfl, if_pos (by norm_num : (1 : Nat) < 3 - 1)]
    unfold retryAux
    rw [h2]
    dsimp only
  rw [hrun]
  refine ⟨rfl, rfl, rfl, rfl, rfl, by unfold exponential_backoff; norm_num⟩

/-- Witness for C6: a transiently failing operation is retried through
the full schedule. -/
theorem C6_retry_three_attempts_witness :
    (retry_with_backoff 3 1 transientFailingOp).result = .ok 7
    ∧ (retry_with_backoff 3 1 transientFailingOp).invocations = 3
    ∧ (retry_with_backoff 3 1 transientFailingOp).sleeps = [1, 2] := by
  have h := C6_retry_three_attempts transientFailingOp "connection timeout"
    "connection timeout" 7 rfl rfl rfl (by decide) (by decide)
  refine ⟨h.1, h.2.1, ?_⟩
  rw [h.2.2.1, h.2.2.2.1, h.2.2.2.2.1]
  norm_num

/-- C2 (counterexample): the generate pipeline passes the constant
breaker name `"ai_service"` for every service kind
(`@circuit_breaker('ai_service')`, `services.py` line 203), so the
breaker it uses for `quiz_generation` and the one it uses for
`lesson_summary` are the same instance, not distinct independent
breakers. -/
theorem C2_counterexample :
    pipeline_breaker_name "quiz_generation" = pipeline_breaker_name "lesson_summary"
    ∧ (get_circuit_breaker
        (get_circuit_breaker emptyBreakerRegistry
          (pipeline_breaker_name "quiz_generation")).2
        (pipeline_breaker_name "lesson_summary")).1
      = (get_circuit_breaker emptyBreakerRegistry
          (pipeline_breaker_name "quiz_generation")).1 :=
  ⟨rfl, rfl⟩

/-- C2 (amended): `get_circuit_breaker` is one-instance-per-name — a
repeated lookup of the same name returns the cached breaker and leaves
the registry unchanged, and lookups of distinct names return distinct
breakers; but the generate pipeline looks every service kind up under
the single name `"ai_service"`. -/
theorem C2_breaker_per_name (r : BreakerRegistry) (hwf : RegistryWF r)
    (n₁ n₂ : String) (hne : n₁ ≠ n₂) :
    (get_circuit_breaker (get_circuit_breaker r n₁).2 n₁).1
      = (get_circuit_breaker r n₁).1
    ∧ (get_circuit_breaker (get_circuit_breaker r n₁).2 n₁).2
      = (get_circuit_breaker r n₁).2
    ∧ (get_circuit_breaker (get_circuit_breaker r n₁).2 n₂).1
      ≠ (get_circuit_breaker r n₁).1
    ∧ (∀ k, pipeline_breaker_name k = "ai_service") := by
  cases hr1 : r.table n₁ with
  | some b =>
    have hfst : get_circuit_breaker r n₁ = (b, r) := by
      unfold get_circuit_breaker; rw [hr1]
    rw [hfst]
    cases hr2 : r.table n₂ with
    | some b₂ =>
      have hsnd : get_circuit_breaker r n₂ = (b₂, r) := by
        unfold get_circuit_breaker; rw [hr2]
      rw [hsnd, hfst]
      exact ⟨rfl, rfl, (hwf.2 n₂ n₁ b₂ b hr2 hr1 (Ne.symm hne)), fun _ => rfl⟩
    | none =>
      have hsnd : (get_circuit_breaker r n₂).1 = r.nextId := by
        unfold get_circuit_breaker; rw [hr2]
      rw [hfst, hsnd]
      have hb : b < r.nextId := hwf.1 n₁ b hr1
      exact ⟨rfl, rfl, by omega, fun _ => rfl⟩
  | none =>
    have hfst : get_circuit_breaker r n₁
        = (r.nextId,
           { table := fun n => if n = n₁ then some r.nextId else r.table n,
             nextId := r.nextId + 1 }) := by
      unfold get_circuit_breaker; rw [hr1]
    rw [hfst]
    refine ⟨?_, ?_, ?_, fun _ => rfl⟩
    · unfold get_circuit_breaker
      dsimp only
      rw [if_pos rfl]
    · unfold get_circuit_breaker
      dsimp only
      rw [if_pos rfl]
    · unfold get_circuit_breaker
      dsimp only
      rw [if_neg (Ne.symm hne)]
      cases hr2 : r.table n₂ with
      | some b₂ =>
        have hb₂ : b₂ < r.nextId := hwf.1 n₂ b₂ hr2
        dsimp only
        omega
      | none =>
        dsimp only
        omega

/-- Witness for C2: from the empty registry, `quiz_generation` and
`lesson_summary` looked up under their own names would get distinct
cached breakers. -/
theorem C2_breaker_per_name_witness :
    (get_circuit_breaker (get_circuit_breaker emptyBreakerRegistry "quiz_generation").2
        "quiz_generation").1
      = (get_circuit_breaker emptyBreakerRegistry "quiz_generation").1
    ∧ (get_circuit_breaker (get_circuit_breaker emptyBreakerRegistry "quiz_generation").2
        "lesson_summary").1
      ≠ (get_circuit_breaker emptyBreakerRegistry "quiz_generation").1 := by
  have hwf : RegistryWF emptyBreakerRegistry :=
    ⟨fun n b h => by simp [emptyBreakerRegistry] at h,
     fun n₁ n₂ b₁ b₂ h => by simp [emptyBreakerRegistry] at h⟩
  have h := C2_breaker_per_name emptyBreakerRegistry hwf
    "quiz_generation" "lesson_summary" (by decide)
  exact ⟨h.1, h.2.2.1⟩

/-- C1: whenever the usage-limit check decides `allowed=false`,
`generate_content` raises an error carrying the reason of the decision,
makes zero `generate_text` calls, and writes zero usage-log rows (no
tokens or cost are charged). -/
theorem C1_usage_denied_blocks_provider (env : GenEnv) (config : ServiceConfig)
    (service_name : String) (c : Cache) (prompt : String)
    (system_prompt : Option String)
    (gen_text : String → Option String → ProviderResponse)
    (h : (check_usage_limit env c service_name).1.allowed = false) :
    generate_content env config service_name c prompt system_prompt gen_text
      = { result := .error ((check_usage_limit env c service_name).1.reason.getD "None"),
          providerCalls := 0, logs := [],
          cache := (check_usage_limit env c service_name).2 } := by
  unfold generate_content
  dsimp only
  rw [if_pos h]

/-- Witness for C1: a user at the monthly limit is rejected with the
quota reason before any provider call or usage row. -/
theorem C1_usage_denied_blocks_provider_witness :
    (check_usage_limit quotaExhaustedEnv emptyCache "quiz_generation").1.allowed = false
    ∧ (generate_content quotaExhaustedEnv (default_config "quiz_generation")
        "quiz_generation" emptyCache "p" none (fun _ _ => goodResponse)).result
      = .error "Monthly limit exceeded"
    ∧ (generate_content quotaExhaustedEnv (default_config "quiz_generation")
        "quiz_generation" emptyCache "p" none (fun _ _ => goodResponse)).providerCalls = 0
    ∧ (generate_content quotaExhaustedEnv (default_config "quiz_generation")
        "quiz_generation" emptyCache "p" none (fun _ _ => goodResponse)).logs = [] := by
  have hall : (check_usage_limit quotaExhaustedEnv emptyCache "quiz_generation").1.allowed
      = false := by decide
  have h := C1_usage_denied_blocks_provider quotaExhaustedEnv
    (default_config "quiz_generation") "quiz_generation" emptyCache "p" none
    (fun _ _ => goodResponse) hall
  rw [h]
  exact ⟨hall, rfl, rfl, rfl⟩

/-- C4 (counterexample): with the default configuration, when the
primary `openai` constructor raises and the fallback `anthropic`
constructs fine, `_get_provider` returns the anthropic instance — but
the `provider` entry of the dictionary returned by a successful
`generate_content` is `self.config.get('provider')`, the configured
primary `"openai"`, not the identifier of the fallback actually used. -/
theorem C4_counterexample :
    get_provider primaryDownBuild (default_config "quiz_generation")
      = .ok { name := "anthropic", model := "claude-3-haiku-20240307" }
    ∧ result_provider
        (generate_content baseGenEnv (default_config "quiz_generation")
          "quiz_generation" emptyCache "p" none (fun _ _ => goodResponse))
      = some "openai"
    ∧ ("openai" : String) ≠ "anthropic" :=
  ⟨rfl, rfl, by decide⟩

/-- C4 (amended): whenever primary construction or validation fails and
the fallback constructs, `generate` transparently uses the fallback
instance — but the provider identifier in any successful result
dictionary is the configured primary identifier, not that of the
fallback. -/
theorem C4_fallback_used_primary_reported
    (build : String → String → Except String ProviderInst)
    (config : ServiceConfig) (fp e : String) (p : ProviderInst)
    (h1 : build config.provider config.model = .error e)
    (h2 : config.fallback_provider = some fp)
    (h3 : build fp config.fallback_model = .ok p) :
    get_provider build config = .ok p
    ∧ ∀ (env : GenEnv) (service : String) (c : Cache) (prompt : String)
        (sp : Option String) (gt : String → Option String → ProviderResponse)
        (r : GenResult),
        (generate_content env config service c prompt sp gt).result = .ok r →
        r.provider = some config.provider := by
  constructor
  · unfold get_provider
    rw [h1]
    dsimp only
    unfold get_fallback_provider
    rw [h2]
    dsimp only
    rw [h3]
  · intro env service c prompt sp gt r hr
    unfold generate_content at hr
    dsimp only at hr
    by_cases hall : (check_usage_limit env c service).1.allowed = false
    · rw [if_pos hall] at hr
      exact absurd hr (by simp)
    · rw [if_neg hall] at hr
      by_cases hresp : (gt (sanitize_user_input env.clean env.max_input_length prompt)
          (sp.map (sanitize_user_input env.clean env.max_input_length))).success = false
      · rw [if_pos hresp] at hr
        exact absurd hr (by simp)
      · rw [if_neg hresp] at hr
        have := (Except.ok.injEq _ _).mp hr
        rw [← this]

/-- Witness for C4 at the concrete failing primary. -/
theorem C4_fallback_used_primary_reported_witness :
    get_provider primaryDownBuild (default_config "quiz_generation")
      = .ok { name := "anthropic", model := "claude-3-haiku-20240307" }
    ∧ result_provider
        (generate_content baseGenEnv (default_config "quiz_generation")
          "quiz_generation" emptyCache "p" none (fun _ _ => goodResponse))
      = some (default_config "quiz_generation").provider := by
  have h := C4_fallback_used_primary_reported primaryDownBuild
    (default_config "quiz_generation") "anthropic" "Invalid API key"
    { name := "anthropic", model := "claude-3-haiku-20240307" } rfl rfl rfl
  refine ⟨h.1, ?_⟩
  have hok : (generate_content baseGenEnv (default_config "quiz_generation")
      "quiz_generation" emptyCache "p" none (fun _ _ => goodResponse)).result
      = .ok { content := goodResponse.content,
              tokens_used := goodResponse.tokens_used,
              cost_estimate := goodResponse.cost_estimate,
              model_used := goodResponse.model_used,
              provider := some "openai",
              validation := validate_educational_content baseGenEnv.is_profane
                goodResponse.content } := rfl
  have hp := h.2 baseGenEnv "quiz_generation" emptyCache "p" none
    (fun _ _ => goodResponse) _ hok
  unfold result_provider
  rw [hok]
  exact hp

/-- The `generate_content` body writes exactly one `success=True` row
when it returns and no row when it raises. -/
theorem generate_content_clean (env : GenEnv) (config : ServiceConfig)
    (service : String) (c : Cache) (prompt : String) (sp : Option String)
    (gt : String → Option String → ProviderResponse) :
    CleanGenLogs (generate_content env config service c prompt sp gt) := by
  unfold generate_content CleanGenLogs
  dsimp only
  by_cases hall : (check_usage_limit env c service).1.allowed = false
  · rw [if_pos hall]
    exact ⟨fun r hr => absurd hr (by simp), fun e he => rfl⟩
  · rw [if_neg hall]
    by_cases hresp : (gt (sanitize_user_input env.clean env.max_input_length prompt)
        (sp.map (sanitize_user_input env.clean env.max_input_length))).success = false
    · rw [if_pos hresp]
      exact ⟨fun r hr => absurd hr (by simp), fun e he => rfl⟩
    · rw [if_neg hresp]
      exact ⟨fun r hr => ⟨_, rfl, rfl, rfl⟩, fun e he => absurd he (by simp)⟩

/-- The retry loop preserves the usage-log discipline: failed attempts
write no rows, so a retried call still yields at most one success row
and no failure rows of its own. -/
theorem retryGenAux_clean (op : Nat → Cache → GenOutcome)
    (hop : ∀ attempt c, CleanGenLogs (op attempt c)) (maxA : Nat) :
    ∀ fuel attempt c, CleanGenLogs (retryGenAux op maxA fuel attempt c) := by
  intro fuel
  induction fuel with
  | zero =>
    intro attempt c
    exact ⟨fun r hr => absurd hr (by simp [retryGenAux]), fun e he => rfl⟩
  | succ fuel ih =>
    intro attempt c
    unfold retryGenAux
    dsimp only
    cases ho : (op attempt c).result with
    | ok r =>
      exact hop attempt c
    | error e =>
      dsimp only
      by_cases hsr : should_retry e attempt maxA = true
      · rw [if_pos hsr]
        by_cases hlt : attempt < maxA - 1
        · rw [if_pos hlt]
          have hoe : (op attempt c).logs = [] := (hop attempt c).2 e ho
          have hrest := ih (attempt + 1) (op attempt c).cache
          rw [hoe]
          exact ⟨fun r' hr' => by
              obtain ⟨rec, h1, h2, h3⟩ := hrest.1 r' hr'
              exact ⟨rec, by simpa using h1, h2, h3⟩,
            fun e' he' => by simpa using hrest.2 e' he'⟩
        · rw [if_neg hlt]
          exact hop attempt c
      · rw [if_neg hsr]
        exact hop attempt c

/-- C5 (amended): per `generate_quiz` call, at most one `success=True`
usage row and at most one `success=False` usage row are written; a call
that raises writes exactly one failure row carrying the final message; a
non-cache-hit call that returns writes exactly one success row; a cache
hit writes no rows.  (A call whose generation succeeds but whose parse
of the generated text fails writes both the success row from
`generate_content` and the failure row from the handler.) -/
theorem C5_one_terminal_log_per_call (env : QuizEnv) :
    ((generate_quiz env).logs.countP (fun rec => rec.success) ≤ 1)
    ∧ ((generate_quiz env).logs.countP (fun rec => !rec.success) ≤ 1)
    ∧ (∀ e, (generate_quiz env).result = .error e →
        ((generate_quiz env).logs.filter (fun rec => !rec.success)).map
            (fun rec => rec.error_message) = [some e])
    ∧ (∀ q l, env.lesson = some l → env.cached_quiz = none →
        (generate_quiz env).result = .ok q →
        (generate_quiz env).logs.map (fun rec => rec.success) = [true])
    ∧ (∀ q l, env.lesson = some l → env.cached_quiz = some q →
        (generate_quiz env).result = .ok q ∧ (generate_quiz env).logs = []) := by
  unfold generate_quiz
  cases hl : env.lesson with
  | none =>
    dsimp only
    refine ⟨by decide, by decide, ?_, ?_, ?_⟩
    · intro e he
      have : "Lesson matching query does not exist." = e := by
        simpa using he
      rw [← this]
      rfl
    · intro q l hll
      exact absurd hll (by simp)
    · intro q l hll
      exact absurd hll (by simp)
  | some lesson_content =>
    dsimp only
    cases hc : env.cached_quiz with
    | some cached =>
      dsimp only
      refine ⟨by decide, by decide, ?_, ?_, ?_⟩
      · intro e he
        exact absurd he (by simp)
      · intro q l _ hcn
        exact absurd hcn (by simp)
      · intro q l _ hcq
        have hq : cached = q := by simpa using hcq
        exact ⟨by rw [hq], rfl⟩
    | none =>
      dsimp only
      set g := (if env.circuit_open then
          { result := Except.error "Failures threshold reached, circuit breaker opened",
            providerCalls := 0, logs := [], cache := env.cache0 }
        else
          retry_generate_content
            (fun attempt c =>
              generate_content env.gen env.config "quiz_generation" c
                (env.build_human_prompt lesson_content)
                (some env.build_system_prompt) (env.gen_text attempt))
            env.cache0 : GenOutcome) with hg
      have hclean : CleanGenLogs g := by
        rw [hg]
        by_cases hco : env.circuit_open
        · rw [if_pos hco]
          exact ⟨fun r hr => absurd hr (by simp), fun e he => rfl⟩
        · rw [if_neg hco]
          exact retryGenAux_clean _ (fun a c => generate_content_clean _ _ _ _ _ _ _) 3 3 0 _
      cases hgr : g.result with
      | error e =>
        have hlogs : g.logs = [] := hclean.2 e hgr
        rw [hlogs]
        refine ⟨by simp [List.countP_cons, log_usage],
          by simp [List.countP_cons, log_usage], ?_, ?_, ?_⟩
        · intro e' he'
          have : e = e' := by simpa using he'
          rw [← this]
          rfl
        · intro q l _ _ hq
          exact absurd hq (by simp)
        · intro q l _ hcq
          exact absurd hcq (by simp)
      | ok res =>
        have hone := hclean.1 res hgr
        obtain ⟨rec, hrec, hrecs, hrecm⟩ := hone
        cases hp : env.parse_quiz res.content with
        | error pe =>
          simp only [hp]
          rw [hrec]
          refine ⟨?_, ?_, ?_, ?_, ?_⟩
          · simp [List.countP_cons, log_usage, hrecs]
          · simp [List.countP_cons, log_usage, hrecs]
          · intro e' he'
            have : pe = e' := by simpa using he'
            rw [← this]
            simp [List.filter_cons, hrecs, log_usage, hrecm]
          · intro q l _ _ hq
            exact absurd hq (by simp)
          · intro q l _ hcq
            exact absurd hcq (by simp)
        | ok u =>
          simp only [hp]
          rw [hrec]
          refine ⟨?_, ?_, ?_, ?_, ?_⟩
          · simp [List.countP_cons, hrecs]
          · simp [List.countP_cons, hrecs]
          · intro e' he'
            exact absurd he' (by simp)
          · intro q l _ _ _
            simp [hrecs]
          · intro q l _ hcq
            exact absurd hcq (by simp)

/-- C5 (counterexample): a quiz call whose generation succeeds but whose
structural parse fails raises the parse error AND leaves both a
`success=True` usage row (written inside `generate_content`) and a
`success=False` usage row (written by the `except` handler) — not "never
both". -/
theorem C5_counterexample :
    (generate_quiz parseFailQuizEnv).result.isOk = false
    ∧ (generate_quiz parseFailQuizEnv).logs.map (fun rec => rec.success)
        = [true, false]
    ∧ (generate_quiz parseFailQuizEnv).logs.map (fun rec => rec.error_message)
        = [none, some "Invalid quiz format: missing questions key"] :=
  ⟨rfl, rfl, rfl⟩

/-- Witness for C5 at a concrete fully-successful call: exactly one
success row. -/
theorem C5_one_terminal_log_per_call_witness :
    (generate_quiz parseOkQuizEnv).logs.map (fun rec => rec.success) = [true] := by
  have h4 := (C5_one_terminal_log_per_call parseOkQuizEnv).2.2.2.1
  exact h4 _ "Bits and bytes." rfl rfl rfl

/-- When the head of the list is not whitespace, the `inRun` flag of the
collapse fold is irrelevant. -/
theorem collapseWsAux_flag_eq (b : Bool) (l : List Char)
    (h : ∀ y, l.head? = some y → pyIsSpace y = false) :
    collapseWsAux b l = collapseWsAux false l := by
  cases l with
  | nil => cases b <;> rfl
  | cons c rest =>
    have hc := h c rfl
    simp [collapseWsAux, hc]

/-- The collapse pass fixes lists in whitespace normal form. -/
theorem collapseWsAux_false_fix : ∀ l, WsNorm l → collapseWsAux false l = l := by
  intro l
  induction l with
  | nil => intro _; rfl
  | cons c rest ih =>
    intro h
    obtain ⟨hmem, hchain⟩ := h
    have htail : WsNorm rest :=
      ⟨fun x hx hs => hmem x (List.mem_cons_of_mem _ hx) hs, hchain.tail⟩
    by_cases hc : pyIsSpace c = true
    · have hceq : c = ' ' := hmem c (List.mem_cons_self _ _) hc
      have hhead : ∀ y, rest.head? = some y → pyIsSpace y = false := by
        intro y hy
        have hrel := hchain.rel_head? (y := y) hy
        cases hys : pyIsSpace y with
        | false => rfl
        | true => exact absurd ⟨hc, hys⟩ hrel
      calc collapseWsAux false (c :: rest)
          = ' ' :: collapseWsAux true rest := by simp [collapseWsAux, hc]
        _ = ' ' :: collapseWsAux false rest := by
            rw [collapseWsAux_flag_eq true rest hhead]
        _ = c :: rest := by rw [ih htail, hceq]
    · simp only [collapseWsAux, hc, if_false]
      rw [ih htail]
      simp [hc]

/-- The output of the collapse pass is in whitespace normal form, and
with the `inRun` flag set its head is never whitespace. -/
theorem collapseWsAux_norm :
    ∀ l, WsNorm (collapseWsAux false l) ∧ WsNorm (collapseWsAux true l)
      ∧ (∀ y, (collapseWsAux true l).head? = some y → pyIsSpace y = false) := by
  intro l
  induction l with
  | nil =>
    exact ⟨⟨by intro c hc hs; simp [collapseWsAux] at hc, List.chain'_nil⟩,
      ⟨by intro c hc hs; simp [collapseWsAux] at hc, List.chain'_nil⟩,
      fun y hy => by simp [collapseWsAux] at hy⟩
  | cons c rest ih =>
    by_cases hc : pyIsSpace c = true
    · have etrue : collapseWsAux true (c :: rest) = collapseWsAux true rest := by
        simp [collapseWsAux, hc]
      have efalse : collapseWsAux false (c :: rest) = ' ' :: collapseWsAux true rest := by
        simp [collapseWsAux, hc]
      refine ⟨?_, ?_, ?_⟩
      · rw [efalse]
        constructor
        · intro x hx hxs
          rcases List.mem_cons.mp hx with h1 | h2
          · exact h1
          · exact ih.2.1.1 x h2 hxs
        · refine List.Chain'.cons' ih.2.1.2 ?_
          intro y hy
          intro hcontra
          have := ih.2.2 y hy
          rw [this] at hcontra
          exact absurd hcontra.2 (by simp)
      · rw [etrue]; exact ih.2.1
      · rw [etrue]; exact ih.2.2
    · have heq : ∀ b, collapseWsAux b (c :: rest) = c :: collapseWsAux false rest := by
        intro b
        cases b <;> simp [collapseWsAux, hc]
      have hcore : WsNorm (c :: collapseWsAux false rest) := by
        constructor
        · intro x hx hxs
          rcases List.mem_cons.mp hx with h1 | h2
          · rw [h1] at hxs; exact absurd hxs hc
          · exact ih.1.1 x h2 hxs
        · refine List.Chain'.cons' ih.1.2 ?_
          intro y _
          intro hcontra
          exact absurd hcontra.1 hc
      refine ⟨by rw [heq false]; exact hcore, by rw [heq true]; exact hcore, ?_⟩
      · intro y hy
        rw [heq true] at hy
        have : c = y := by simpa using hy
        rw [← this]
        simpa using hc

/-- The collapse pass produces whitespace normal form. -/
theorem collapseWs_norm (l : List Char) : WsNorm (collapseWs l) :=
  (collapseWsAux_norm l).1

/-- The collapse pass fixes whitespace normal form. -/
theorem collapseWs_fix (l : List Char) (h : WsNorm l) : collapseWs l = l :=
  collapseWsAux_false_fix l h

/-- A nonempty list shares its head with any list it is a prefix of. -/
theorem head?_of_ne_nil_of_isPrefix {l₁ l₂ : List Char}
    (h : l₁ <+: l₂) (hne : l₁ ≠ []) : l₁.head? = l₂.head? := by
  obtain ⟨t, rfl⟩ := h
  cases l₁ with
  | nil => exact absurd rfl hne
  | cons a s => rfl

/-- Whitespace normal form survives dropping a prefix. -/
theorem WsNorm_dropWhile (p : Char → Bool) (l : List Char) (h : WsNorm l) :
    WsNorm (l.dropWhile p) := by
  have hsuf : l.dropWhile p <:+ l := List.dropWhile_suffix p
  exact ⟨fun c hc hs => h.1 c (hsuf.sublist.subset hc) hs, h.2.suffix hsuf⟩

/-- Whitespace normal form survives dropping a suffix. -/
theorem WsNorm_rdropWhile (p : Char → Bool) (l : List Char) (h : WsNorm l) :
    WsNorm (List.rdropWhile p l) := by
  have hpre := List.rdropWhile_prefix p l
  refine ⟨fun c hc hs => h.1 c (hpre.sublist.subset hc) hs, ?_⟩
  have heq : List.rdropWhile p l = List.take (List.rdropWhile p l).length l :=
    List.prefix_iff_eq_take.mp hpre
  rw [heq]
  exact h.2.take _

/-- The head of the stripped list is not whitespace. -/
theorem pyStrip_head (l : List Char) :
    ∀ y, (pyStrip l).head? = some y → pyIsSpace y = false := by
  unfold pyStrip
  intro y hy
  have hne : List.rdropWhile pyIsSpace (List.dropWhile pyIsSpace l) ≠ [] := by
    intro hnil
    rw [hnil] at hy
    exact absurd hy (by simp)
  have hpre := List.rdropWhile_prefix pyIsSpace (List.dropWhile pyIsSpace l)
  have hh := head?_of_ne_nil_of_isPrefix hpre hne
  rw [hh] at hy
  have hmne : List.dropWhile pyIsSpace l ≠ [] := by
    intro hnil
    rw [hnil] at hy
    exact absurd hy (by simp)
  have hhead := List.head?_eq_head hmne
  rw [hhead] at hy
  have hyy : (List.dropWhile pyIsSpace l).head hmne = y := by
    exact Option.some.inj hy
  rw [← hyy]
  exact List.head_dropWhile_not pyIsSpace l hmne

/-- The last element of the stripped list is not whitespace. -/
theorem pyStrip_last (l : List Char) :
    ∀ y, (pyStrip l).getLast? = some y → pyIsSpace y = false := by
  unfold pyStrip
  intro y hy
  have hne : List.rdropWhile pyIsSpace (List.dropWhile pyIsSpace l) ≠ [] := by
    intro hnil
    rw [hnil] at hy
    exact absurd hy (by simp)
  have hlast := List.getLast?_eq_getLast _ hne
  rw [hlast] at hy
  have hyy := Option.some.inj hy
  have hnot := List.rdropWhile_last_not pyIsSpace (List.dropWhile pyIsSpace l) hne
  rw [hyy] at hnot
  simpa using hnot

/-- Dropping a prefix does nothing when the head fails the predicate. -/
theorem dropWhile_eq_self_of_head (p : Char → Bool) (l : List Char)
    (h : ∀ y, l.head? = some y → p y = false) : l.dropWhile p = l := by
  cases l with
  | nil => rfl
  | cons c r => simp [List.dropWhile_cons, h c rfl]

/-- Stripping does nothing when neither end is whitespace. -/
theorem pyStrip_eq_self (l : List Char)
    (hh : ∀ y, l.head? = some y → pyIsSpace y = false)
    (hl : ∀ y, l.getLast? = some y → pyIsSpace y = false) : pyStrip l = l := by
  unfold pyStrip
  rw [dropWhile_eq_self_of_head pyIsSpace l hh]
  rw [List.rdropWhile_eq_self_iff.mpr ?_]
  intro hne
  have := hl (l.getLast hne) (List.getLast?_eq_getLast l hne)
  simp [this]

/-- Collapse-then-strip fixes any list in whitespace normal form whose
ends are not whitespace. -/
theorem cs_fix_of (t : List Char) (h : WsNorm t)
    (hh : ∀ y, t.head? = some y → pyIsSpace y = false)
    (hl : ∀ y, t.getLast? = some y → pyIsSpace y = false) :
    pyStrip (collapseWs t) = t := by
  rw [collapseWs_fix t h]
  exact pyStrip_eq_self t hh hl

/-- Collapse-then-strip is idempotent. -/
theorem cs_idem (l : List Char) :
    pyStrip (collapseWs (pyStrip (collapseWs l))) = pyStrip (collapseWs l) :=
  cs_fix_of _ (WsNorm_rdropWhile _ _ (WsNorm_dropWhile _ _ (collapseWs_norm l)))
    (pyStrip_head _) (pyStrip_last _)

/-- Collapse-then-strip also fixes a truncated normal text with the
`"..."` marker appended. -/
theorem cs_trunc_fix (l : List Char) (n : Nat) :
    pyStrip (collapseWs ((pyStrip (collapseWs l)).take n ++ ellipsis))
      = (pyStrip (collapseWs l)).take n ++ ellipsis := by
  have ht : WsNorm (pyStrip (collapseWs l)) :=
    WsNorm_rdropWhile _ _ (WsNorm_dropWhile _ _ (collapseWs_norm l))
  apply cs_fix_of
  · constructor
    · intro c hc hs
      rcases List.mem_append.mp hc with h1 | h2
      · exact ht.1 c (List.take_subset n _ h1) hs
      · have : c = '.' := by
          rcases List.mem_cons.mp h2 with h | h
          · exact h
          rcases List.mem_cons.mp h with h | h
          · exact h
          rcases List.mem_cons.mp h with h | h
          · exact h
          · exact absurd h (by simp)
        rw [this] at hs
        exact absurd hs (by decide)
    · refine List.chain'_append.mpr ⟨ht.2.take n, ?_, ?_⟩
      · have hdot : ¬(pyIsSpace '.' = true ∧ pyIsSpace '.' = true) :=
          fun h => absurd h.1 (by decide)
        exact List.Chain'.cons hdot (List.Chain'.cons hdot (List.chain'_singleton _))
      · intro x _ y hy
        have hy' : '.' = y := by simpa [ellipsis] using hy
        intro hcontra
        rw [← hy'] at hcontra
        exact absurd hcontra.2 (by decide)
  · intro y hy
    cases htake : (pyStrip (collapseWs l)).take n with
    | nil =>
      rw [htake] at hy
      have h' : '.' = y := by simpa [ellipsis] using hy
      rw [← h']
      decide
    | cons a s =>
      rw [htake] at hy
      have hya : a = y := by simpa using hy
      have hheadt : (pyStrip (collapseWs l)).head? = some a := by
        cases hl : pyStrip (collapseWs l) with
        | nil => rw [hl] at htake; simp at htake
        | cons b t' =>
          rw [hl] at htake
          cases n with
          | zero => simp at htake
          | succ m =>
            rw [List.take_succ_cons] at htake
            have hba : b = a := ((List.cons.injEq _ _ _ _).mp htake).1
            rw [hba]
            rfl
      rw [← hya]
      exact pyStrip_head _ a hheadt
  · intro y hy
    have hell : (ellipsis : List Char) ≠ [] := by simp [ellipsis]
    rw [List.getLast?_append_of_ne_nil _ hell] at hy
    have h' : '.' = y := by simpa [ellipsis] using hy
    rw [← h']
    decide

/-- Unfolding equation for the sanitizer. -/
theorem sanitize_eq (clean : String → String) (max_length : Nat) (u : String) :
    sanitize_user_input clean max_length u
      = if max_length < (collapsedClean clean u).length
        then ⟨(collapsedClean clean u).take max_length ++ ellipsis⟩
        else ⟨collapsedClean clean u⟩ := rfl

/-- C8: `sanitize_user_input` is a pure deterministic function and is
idempotent, under the assumption that the external `bleach.clean(·,
tags=[], strip=True)` fixes already-sanitized strings (its output
contains no markup to strip). -/
theorem C8_sanitize_idempotent (clean : String → String) (max_length : Nat)
    (hclean : ∀ s, clean (sanitize_user_input clean max_length s)
        = sanitize_user_input clean max_length s)
    (x : String) :
    sanitize_user_input clean max_length (sanitize_user_input clean max_length x)
      = sanitize_user_input clean max_length x := by
  by_cases hlen : max_length < (collapsedClean clean x).length
  · have hy : sanitize_user_input clean max_length x
        = ⟨(collapsedClean clean x).take max_length ++ ellipsis⟩ := by
      rw [sanitize_eq, if_pos hlen]
    have hcc : collapsedClean clean (sanitize_user_input clean max_length x)
        = (collapsedClean clean x).take max_length ++ ellipsis := by
      unfold collapsedClean
      rw [hclean x, hy]
      exact cs_trunc_fix (clean x).data max_length
    have hlen3 : ((collapsedClean clean x).take max_length ++ ellipsis).length
        = max_length + 3 := by
      rw [List.length_append, List.length_take]
      simp only [ellipsis, List.length_cons, List.length_nil]
      omega
    have hcond : max_length
        < ((collapsedClean clean x).take max_length ++ ellipsis).length := by
      rw [hlen3]; omega
    have htake : ((collapsedClean clean x).take max_length ++ ellipsis).take max_length
        = (collapsedClean clean x).take max_length := by
      have h1 : ((collapsedClean clean x).take max_length).length = max_length := by
        rw [List.length_take]; omega
      rw [List.take_append_eq_append_take, List.take_of_length_le (le_of_eq h1), h1,
        Nat.sub_self]
      simp
    rw [sanitize_eq clean max_length (sanitize_user_input clean max_length x), hcc,
      if_pos hcond, htake, hy]
  · have hy : sanitize_user_input clean max_length x = ⟨collapsedClean clean x⟩ := by
      rw [sanitize_eq, if_neg hlen]
    have hcc : collapsedClean clean (sanitize_user_input clean max_length x)
        = collapsedClean clean x := by
      unfold collapsedClean
      rw [hclean x, hy]
      exact cs_idem (clean x).data
    rw [sanitize_eq clean max_length (sanitize_user_input clean max_length x), hcc,
      if_neg hlen, hy]

/-- Witness for C8 with `clean = id` (which trivially fixes sanitized
strings) at a concrete input. -/
theorem C8_sanitize_idempotent_witness :
    sanitize_user_input id 5000 (sanitize_user_input id 5000 "  a   b  ")
      = sanitize_user_input id 5000 "  a   b  "
    ∧ sanitize_user_input id 5000 "  a   b  " = "a b" :=
  ⟨C8_sanitize_idempotent id 5000 (fun _ => rfl) "  a   b  ", by decide⟩

end AiLms
